import Mathlib

/-!
# GhostComms NoEU relay — verification of the envelope relay and device session manager

Shallow embedding of the relay's core operations, translated from the
TypeScript source:

* `cleanupExpiredEnvelopes` — `src/unnamed/part_007` (the hourly expiry sweep);
* `backlogQuery` / `backlogPass` — the backlog drain of `attachWs`
  (`src/server/src/ws.ts`);
* `inboxFromQuery` — `GET /inbox/from/:username` (`src/server/src/routes.ts`);
* `checkRateLimit` and the WebSocket message handler `handleMessage` —
  `src/unnamed/part_006`;
* `selectUnusedPrekey` / `markPrekeyUsed` / `fetchBundle` — the
  `GET /prekeys/:deviceId` handler (`src/server/src/routes.ts`);
* the connection registry operations of `attachWs` and of the older `/ws`
  handler in `src/server/src/index.ts`.

Timestamps are naturals (milliseconds), byte strings are opaque `List Nat` /
`String` values, and the Prisma tables are lists of rows.  Each awaited
database call of a handler is one step of the embedding, so interleavings of
concurrent requests can be replayed as schedules over those steps.
-/

namespace GhostComms

/-- Functional update of an association-list map: install the binding `k ↦ v`,
dropping any previous binding of `k` (the `Map.set` of the source). -/
def mapSet {α β : Type} [BEq α] (m : List (α × β)) (k : α) (v : β) : List (α × β) :=
  (k, v) :: m.filter (fun p => !(p.1 == k))

/-! ## Data model (prisma schema, `src/unnamed/part_000`) -/

/-- A `Device` row: id, owning user, key material and last-seen timestamp. -/
structure Device where
  id : String
  userId : String
  identityKeyPub : List Nat
  signedPrekeyPub : List Nat
  lastSeenAt : Nat
deriving Repr, DecidableEq

/-- A `User` row (only the fields the relay reads). -/
structure UserRow where
  id : String
  username : String
deriving Repr, DecidableEq

/-- A `OneTimePrekey` row: consumable public key with its used flag. -/
structure OneTimePrekey where
  id : Nat
  deviceId : String
  keyPub : List Nat
  used : Bool
deriving Repr, DecidableEq

/-- An `Envelope` row: the unit of relay transport. -/
structure Envelope where
  id : Nat
  fromDeviceId : String
  toUserId : String
  toDeviceId : Option String
  ciphertext : String
  contentType : String
  createdAt : Nat
  deliveredAt : Option Nat
  expiresAt : Nat
deriving Repr, DecidableEq

/-! ## Expiry sweep (`cleanupExpiredEnvelopes`, `src/unnamed/part_007`)

`prisma.envelope.deleteMany({ where: { expiresAt: { lt: new Date() } } })`:
rows whose `expiresAt` is strictly before `now` are removed, and the call
returns the number of deleted rows.  The predicate reads only `expiresAt`;
`deliveredAt` plays no part. -/

/-- The expiry sweep: returns the remaining store and the deleted count. -/
def cleanupExpiredEnvelopes (store : List Envelope) (now : Nat) : List Envelope × Nat :=
  (store.filter (fun e => !decide (e.expiresAt < now)),
   (store.filter (fun e => decide (e.expiresAt < now))).length)

/-! ## Drain queries (`src/server/src/ws.ts`, `src/server/src/routes.ts`) -/

/-- The `orderBy: { createdAt: 'asc' }` ordering of the drain queries. -/
def createdLe (a b : Envelope) : Prop := a.createdAt ≤ b.createdAt

instance : DecidableRel createdLe := fun a b => Nat.decLe a.createdAt b.createdAt

instance : IsTotal Envelope createdLe := ⟨fun a b => Nat.le_total a.createdAt b.createdAt⟩

instance : IsTrans Envelope createdLe := ⟨fun _ _ _ h1 h2 => Nat.le_trans h1 h2⟩

/-- Backlog query of `attachWs` (`src/server/src/ws.ts` lines 38-40):
`findMany({ where: { toDeviceId: did }, orderBy: { createdAt: 'asc' }, take: 100 })`.
Note that the query has no condition on `expiresAt`. -/
def backlogQuery (store : List Envelope) (did : String) : List Envelope :=
  (List.insertionSort createdLe (store.filter (fun e => e.toDeviceId == some did))).take 100

/-- Inbox drain query of `GET /inbox/from/:username` (`src/server/src/routes.ts`
lines 313-317): `findMany({ where: { toDeviceId: did, fromDeviceId: { in:
peerDeviceIds } }, orderBy: { createdAt: 'asc' }, take: 200 })`. -/
def inboxFromQuery (store : List Envelope) (did : String) (peerDeviceIds : List String) :
    List Envelope :=
  (List.insertionSort createdLe (store.filter
    (fun e => e.toDeviceId == some did && peerDeviceIds.contains e.fromDeviceId))).take 200

/-- One full backlog drain pass of `attachWs`: the query, then (for every
envelope it sent) the `deliveredAt` update followed by the delete of that row.
Returns the sent envelopes and the remaining store. -/
def backlogPass (store : List Envelope) (did : String) : List Envelope × List Envelope :=
  (backlogQuery store did,
   (backlogQuery store did).foldl
     (fun s env => s.filter (fun e => !(e.id == env.id))) store)

/-! ## Rate limiter (`checkRateLimit`, `src/unnamed/part_006` lines 35-53) -/

/-- A `wsRateLimits` entry: count of messages in the current window and the
window's end (`resetAt = now + RATE_WINDOW_MS` when it was started). -/
structure RateLimitEntry where
  count : Nat
  resetAt : Nat
deriving Repr, DecidableEq

/-- `MESSAGE_RATE_LIMIT = 50` messages per window. -/
def messageRateMax : Nat := 50

/-- `RATE_WINDOW_MS = 60000` (one minute). -/
def rateWindowMs : Nat := 60000

/-- The `wsRateLimits` map, keyed by sending device id. -/
abbrev RateMap := List (String × RateLimitEntry)

/-- `checkRateLimit(deviceId)`: no entry or `now > entry.resetAt` starts a fresh
window with count 1 and accepts; a full window (`entry.count >= 50`) rejects
without touching the entry; otherwise the count is incremented and the message
accepted.  Returns the verdict and the updated map. -/
def checkRateLimit (limits : RateMap) (deviceId : String) (now : Nat) : Bool × RateMap :=
  match limits.lookup deviceId with
  | none => (true, mapSet limits deviceId ⟨1, now + rateWindowMs⟩)
  | some entry =>
    if entry.resetAt < now then
      (true, mapSet limits deviceId ⟨1, now + rateWindowMs⟩)
    else if messageRateMax ≤ entry.count then
      (false, limits)
    else
      (true, mapSet limits deviceId ⟨entry.count + 1, entry.resetAt⟩)

/-- Feed a sequence of inbound-message timestamps for one device through
`checkRateLimit`, collecting the verdicts (the gate the message handler runs
first on every message). -/
def rateRun (did : String) : List Nat → RateMap → RateMap × List Bool
  | [], m => (m, [])
  | t :: ts, m =>
    let r1 := checkRateLimit m did t
    let rest := rateRun did ts r1.2
    (rest.1, r1.1 :: rest.2)

/-! ## Prekey store (`GET /prekeys/:deviceId`, `src/server/src/routes.ts`
lines 242-258, identical in `src/unnamed/part_003` lines 54-70)

The handler performs two awaited database calls: a `device.findUnique` with
`include: { oneTimePrekeys: { where: { used: false }, take: 1 } }`, then — if a
prekey was selected — a separate `oneTimePrekey.update` setting `used: true`. -/

/-- The `findUnique ... include take 1` read: the first unused prekey of the
device in table order, if any. -/
def selectUnusedPrekey (prekeys : List OneTimePrekey) (deviceId : String) :
    Option OneTimePrekey :=
  ((prekeys.filter (fun k => k.deviceId == deviceId && k.used == false)).take 1).head?

/-- The `oneTimePrekey.update({ where: { id }, data: { used: true } })` write. -/
def markPrekeyUsed (prekeys : List OneTimePrekey) (pid : Nat) : List OneTimePrekey :=
  prekeys.map (fun k => if k.id == pid then { k with used := true } else k)

/-- The prekey bundle the handler returns. -/
structure PrekeyBundle where
  identityKeyPub : List Nat
  signedPrekeyPub : List Nat
  oneTimePrekeyPub : Option (List Nat)
deriving Repr, DecidableEq

/-- `GET /prekeys/:deviceId` run to completion with no interleaving: 404 (`none`)
for an unknown device, else the bundle, with the selected prekey marked used by
the separate update write. -/
def fetchBundle (devices : List Device) (prekeys : List OneTimePrekey) (deviceId : String) :
    Option PrekeyBundle × List OneTimePrekey :=
  match devices.find? (fun d => d.id == deviceId) with
  | none => (none, prekeys)
  | some d =>
    match selectUnusedPrekey prekeys deviceId with
    | none => (some ⟨d.identityKeyPub, d.signedPrekeyPub, none⟩, prekeys)
    | some otk =>
      (some ⟨d.identityKeyPub, d.signedPrekeyPub, some otk.keyPub⟩,
       markPrekeyUsed prekeys otk.id)

/-- Progress of one in-flight `/prekeys/:deviceId` request: before its read,
between its read and its update write, or finished.  The payload records the
prekey row the `findUnique` read returned to that caller. -/
inductive FetchPhase
  | ready
  | selected (r : Option OneTimePrekey)
  | finished (r : Option OneTimePrekey)
deriving Repr, DecidableEq

/-- One awaited step of the `/prekeys/:deviceId` handler against the prekey
table: first the `findUnique` read selecting the first unused prekey, then the
separate `update` write marking the selected prekey used. -/
def fetchStep (deviceId : String) (pks : List OneTimePrekey) :
    FetchPhase → List OneTimePrekey × FetchPhase
  | .ready => (pks, .selected (selectUnusedPrekey pks deviceId))
  | .selected (some otk) => (markPrekeyUsed pks otk.id, .finished (some otk))
  | .selected none => (pks, .finished none)
  | .finished r => (pks, .finished r)

/-- Two concurrent `/prekeys/:deviceId` requests for the same device run under a
schedule: `true` steps the first request, `false` the second; each request is
the read await followed by the update await, exactly as the handler issues
them. -/
def runTwoFetches (deviceId : String) :
    List Bool → List OneTimePrekey → FetchPhase → FetchPhase →
      List OneTimePrekey × FetchPhase × FetchPhase
  | [], pks, t1, t2 => (pks, t1, t2)
  | true :: s, pks, t1, t2 =>
    let r := fetchStep deviceId pks t1
    runTwoFetches deviceId s r.1 r.2 t2
  | false :: s, pks, t1, t2 =>
    let r := fetchStep deviceId pks t2
    runTwoFetches deviceId s r.1 t1 r.2

/-! ## Concurrent backlog drains (`attachWs`, `src/server/src/ws.ts` lines 37-53)

The drain is an awaited `findMany` read followed by awaited `update`/`delete`
writes for each envelope it returned. -/

/-- Progress of one in-flight backlog drain: before its read, between its read
and its deletes, or finished.  The payload records the envelopes the `findMany`
returned (i.e. replayed) to that drain. -/
inductive DrainPhase
  | ready
  | queried (r : List Envelope)
  | finished (r : List Envelope)
deriving Repr, DecidableEq

/-- One awaited step of the backlog drain: the `findMany` read, then the
`deliveredAt` update and delete writes for every envelope that read returned. -/
def drainStep (did : String) (store : List Envelope) :
    DrainPhase → List Envelope × DrainPhase
  | .ready => (store, .queried (backlogQuery store did))
  | .queried r =>
    (r.foldl (fun s env => s.filter (fun e => !(e.id == env.id))) store, .finished r)
  | .finished r => (store, .finished r)

/-- Two concurrent backlog drains for the same device run under a schedule:
`true` steps the first drain, `false` the second. -/
def runTwoDrains (did : String) :
    List Bool → List Envelope → DrainPhase → DrainPhase →
      List Envelope × DrainPhase × DrainPhase
  | [], store, t1, t2 => (store, t1, t2)
  | true :: s, store, t1, t2 =>
    let r := drainStep did store t1
    runTwoDrains did s r.1 r.2 t2
  | false :: s, store, t1, t2 =>
    let r := drainStep did store t2
    runTwoDrains did s r.1 t1 r.2

/-! ## Connection registry (`attachWs` in `src/server/src/ws.ts` /
`src/unnamed/part_006`, and the older `/ws` handler in
`src/server/src/index.ts` lines 101-108)

Connections are identified by numbers; `conns` maps a device id to its
registered connection, and `closeReason` records, for each connection the
server has closed, the reason string it was closed with. -/

/-- The registry world: the `conns` map plus the server-issued close reasons. -/
structure ConnWorld where
  conns : List (String × Nat)
  closeReason : List (Nat × String)
deriving Repr, DecidableEq

/-- Registration in the current `attachWs` (`src/server/src/ws.ts` lines 28-34):
after token verification the handler runs `conns.set(did, ws)` — nothing else.
No close is issued to a previously registered connection for `did`. -/
def wsRegister (w : ConnWorld) (did : String) (c : Nat) : ConnWorld :=
  { w with conns := mapSet w.conns did c }

/-- Registration in the older `/ws` handler (`src/server/src/index.ts` lines
101-108): an existing different connection for `did` is closed with
`(1000, 'replaced')` and deleted before the new one is installed. -/
def wsRegisterOld (w : ConnWorld) (did : String) (c : Nat) : ConnWorld :=
  match w.conns.lookup did with
  | some c0 =>
    if c0 != c then
      { conns := mapSet (w.conns.filter (fun p => !(p.1 == did))) did c,
        closeReason := mapSet w.closeReason c0 "replaced" }
    else
      { w with conns := mapSet w.conns did c }
  | none => { w with conns := mapSet w.conns did c }

/-- The `ws.on('close')` handler (both variants): remove the registry entry only
if it still maps to the socket that closed. -/
def wsCloseHandler (w : ConnWorld) (did : String) (c : Nat) : ConnWorld :=
  if w.conns.lookup did == some c then
    { w with conns := w.conns.filter (fun p => !(p.1 == did)) }
  else w

/-! ## WebSocket message handler (`attachWs`, `src/unnamed/part_006` lines 132-244) -/

/-- A parsed inbound frame: `{ to, ciphertext, contentType?, clientMsgId? }`. -/
structure Frame where
  toRecipient : String
  ciphertext : String
  contentType : Option String
  clientMsgId : Option String
deriving Repr, DecidableEq

/-- Frames the relay writes to sockets: the delivered-envelope push, the
delivery acknowledgment (with `direct = true` for a live push, `false` for
queued), and the structured error frame. -/
inductive OutFrame
  | push (id : Nat) (srcDevice dstDevice ciphertext contentType : String)
  | ack (id : Nat) (toField : String) (direct : Bool) (sentAt : Nat)
      (clientMsgId : Option String)
  | errorFrame (code message : String)
deriving Repr, DecidableEq

/-- `EPHEMERAL_TTL_SECONDS` default. -/
def ephemeralTtlSeconds : Nat := 86400

/-- The server-side state the handler touches: the rate-limit map, the envelope
table, the next envelope id, the `conns` map (device id ↦ whether its socket's
`readyState` is OPEN), the `userDevices` index, the `Device` and `User` tables,
and whether the persistence backend is reachable (`prisma.envelope.create`
throws when it is not). -/
structure ServerState where
  rate : RateMap
  store : List Envelope
  nextId : Nat
  conns : List (String × Bool)
  userDevices : List (String × List String)
  devices : List Device
  users : List UserRow
  storeUp : Bool
deriving Repr, DecidableEq

/-- What one invocation of the handler wrote to sockets: the frames written to
the sender's socket and the pushes written to recipient sockets. -/
structure HandleOut where
  senderFrames : List OutFrame
  pushes : List (String × OutFrame)
deriving Repr, DecidableEq

/-- Whether the registered socket of a device is present with `readyState` OPEN. -/
def connOpen (conns : List (String × Bool)) (d : String) : Bool :=
  conns.lookup d == some true

/-- The `ws.on('message')` handler of `attachWs` (`src/unnamed/part_006`), for
the authenticated sender device `did` at clock `now`; `raw = none` models a
payload `JSON.parse` rejects.  In source order: the rate-limit gate (rejection
sends the `RATE_LIMIT` error frame and returns); shape validation (`!msg.toRecipient ||
!msg.ciphertext` returns silently); recipient resolution, device id first, then
username, else a silent return; `prisma.envelope.create` — when the store is
down it throws into the catch block, which only logs, so nothing is sent;
immediate delivery to the target device or to all of the target account's open
devices; deletion of the envelope when some push happened; and the ack to the
sender's registered socket. -/
def handleMessage (st : ServerState) (did : String) (now : Nat) (raw : Option Frame) :
    ServerState × HandleOut :=
  match checkRateLimit st.rate did now with
  | (false, _) =>
    (st, ⟨[.errorFrame "RATE_LIMIT" "Too many messages, please slow down"], []⟩)
  | (true, rate') =>
    let st1 : ServerState := { st with rate := rate' }
    match raw with
    | none => (st1, ⟨[], []⟩)
    | some msg =>
      if msg.toRecipient == "" || msg.ciphertext == "" then (st1, ⟨[], []⟩)
      else
        match
          (match st1.devices.find? (fun d => d.id == msg.toRecipient) with
           | some d => some (d.userId, some msg.toRecipient)
           | none =>
             match st1.users.find? (fun u => u.username == msg.toRecipient) with
             | some u => some (u.id, (none : Option String))
             | none => none) with
        | none => (st1, ⟨[], []⟩)
        | some (targetUserId, targetDeviceId) =>
          if !st1.storeUp then (st1, ⟨[], []⟩)
          else
            let env : Envelope :=
              { id := st1.nextId, fromDeviceId := did, toUserId := targetUserId,
                toDeviceId := targetDeviceId, ciphertext := msg.ciphertext,
                contentType := msg.contentType.getD "msg", createdAt := now,
                deliveredAt := none,
                expiresAt := now + ephemeralTtlSeconds * 1000 }
            let st2 : ServerState :=
              { st1 with store := st1.store ++ [env], nextId := st1.nextId + 1 }
            let pushes : List (String × OutFrame) :=
              match targetDeviceId with
              | some td =>
                if connOpen st2.conns td then
                  [(td, .push env.id did td msg.ciphertext env.contentType)]
                else []
              | none =>
                ((st2.userDevices.lookup targetUserId).getD []).filterMap fun d =>
                  if connOpen st2.conns d then
                    some (d, .push env.id did d msg.ciphertext env.contentType)
                  else none
            let delivered : Bool := !pushes.isEmpty
            let st3 : ServerState :=
              if delivered then
                { st2 with store := st2.store.filter (fun e => !(e.id == env.id)) }
              else st2
            let senderFrames : List OutFrame :=
              if connOpen st3.conns did then
                [.ack env.id msg.toRecipient delivered now msg.clientMsgId]
              else []
            (st3, ⟨senderFrames, pushes⟩)

/-! ## Recipient resolution over HTTP (`GET /resolve/:who`,
`src/server/src/routes.ts` lines 43-64) -/

/-- The `orderBy: { lastSeenAt: 'desc' }` ordering. -/
def seenDesc (a b : Device) : Prop := b.lastSeenAt ≤ a.lastSeenAt

instance : DecidableRel seenDesc := fun a b => Nat.decLe b.lastSeenAt a.lastSeenAt

instance : IsTotal Device seenDesc := ⟨fun a b => Nat.le_total b.lastSeenAt a.lastSeenAt⟩

instance : IsTrans Device seenDesc := ⟨fun _ _ _ h1 h2 => Nat.le_trans h2 h1⟩

/-- `GET /resolve/:who`: an existing device id is accepted as-is; otherwise the
trimmed, lowercased username is looked up and its most recently seen device
returned; otherwise 404 (`none`, also when the user has no devices). -/
def resolveWho (devices : List Device) (users : List UserRow) (who : String) :
    Option String :=
  match devices.find? (fun d => d.id == who) with
  | some d => some d.id
  | none =>
    match users.find? (fun u => u.username == who.trim.toLower) with
    | some u =>
      match (List.insertionSort seenDesc
          (devices.filter (fun d => d.userId == u.id))).head? with
      | some d => some d.id
      | none => none
    | none => none

/-! ## Concrete sample values used by the concrete theorems below -/

/-- A prekey of device `b`, not yet used. -/
def samplePrekey : OneTimePrekey := ⟨1, "b", [7], false⟩

/-- An envelope queued for device `b`. -/
def racedEnvelope : Envelope := ⟨3, "a", "u", some "b", "CT", "msg", 0, none, 1000⟩

/-- An envelope for device `b` whose expiry (time 5) has already passed. -/
def lateEnvelope : Envelope := ⟨1, "a", "u", some "b", "CT", "msg", 0, none, 5⟩

/-- An envelope whose `expiresAt` equals the sweep instant. -/
def boundaryEnvelope : Envelope := ⟨2, "a", "u", some "b", "CT", "msg", 0, none, 5⟩

/-- Device `b` of user `ub`. -/
def deviceB : Device := ⟨"b", "ub", [1], [2], 0⟩

/-- A server whose persistence backend is down; the sender's socket `a` is
registered and open, and the recipient device `b` exists. -/
def stStoreDown : ServerState :=
  { rate := [], store := [], nextId := 0, conns := [("a", true)],
    userDevices := [], devices := [deviceB], users := [], storeUp := false }

/-- A healthy server with an empty device and user directory; the sender's
socket `a` is registered and open. -/
def stEmptyDirectory : ServerState :=
  { rate := [], store := [], nextId := 0, conns := [("a", true)],
    userDevices := [], devices := [], users := [], storeUp := true }

/-- A server whose rate window for device `d` is exhausted (count 50, window
ends at 60000). -/
def stAtRateMax : ServerState :=
  { rate := [("d", ⟨50, 60000⟩)], store := [], nextId := 0, conns := [],
    userDevices := [], devices := [], users := [], storeUp := true }

/-- A store holding two envelopes for device `b`, in reverse creation order. -/
def fifoStore : List Envelope :=
  [⟨10, "a", "u", some "b", "C1", "msg", 1, none, 99⟩,
   ⟨11, "a", "u", some "b", "C0", "msg", 0, none, 99⟩]

/-! ## Claims -/

/-- Claim C1. The claim says `fetchBundle` returns a one-time prekey to at most
one caller ever, the mark-used being atomic with the read.  The code instead
issues the `findUnique` read and the `oneTimePrekey.update` write as two
separate awaited calls, so the interleaving read₁, read₂, write₁, write₂ of two
concurrent `GET /prekeys/b` requests hands the same not-yet-used prekey (id 1,
`used := false` at both reads) to both callers.  This theorem replays that
schedule. -/
theorem prekey_consume_race :
    runTwoFetches "b" [true, false, true, false] [samplePrekey]
        FetchPhase.ready FetchPhase.ready =
      ([⟨1, "b", [7], true⟩],
       FetchPhase.finished (some samplePrekey),
       FetchPhase.finished (some samplePrekey)) := by
  decide

/-- Claim C2. The claim says `drainFor` returns an envelope at most once across
all drains, the delivered-mark-and-delete being part of the same read.  The
code issues the `findMany` read and the per-envelope `update`/`delete` writes
as separate awaited calls, so two concurrent drains for device `b` whose reads
both complete before either delete replay the same envelope to both.  This
theorem replays that schedule. -/
theorem drain_read_delete_race :
    runTwoDrains "b" [true, false, true, false] [racedEnvelope]
        DrainPhase.ready DrainPhase.ready =
      ([], DrainPhase.finished [racedEnvelope], DrainPhase.finished [racedEnvelope]) := by
  decide

/-- Claim C3. The claim says a new connection for a device closes the prior one
with a distinguishable "replaced" reason before being installed.  In the
current `attachWs` registering connection 2 for device `d` while connection 1
is registered (i) leaves 2 registered, but (ii) issues no close at all to
connection 1 — no "replaced" reason is recorded; (iii) only the older `/ws`
variant closes connection 1 with "replaced"; (iv) the stale close of
connection 1 does not unregister connection 2. -/
theorem register_replaced_close_missing :
    (wsRegister (wsRegister ⟨[], []⟩ "d" 1) "d" 2).conns.lookup "d" = some 2 ∧
    (wsRegister (wsRegister ⟨[], []⟩ "d" 1) "d" 2).closeReason.lookup 1 = none ∧
    (wsRegisterOld (wsRegister ⟨[], []⟩ "d" 1) "d" 2).closeReason.lookup 1 =
      some "replaced" ∧
    (wsCloseHandler (wsRegister (wsRegister ⟨[], []⟩ "d" 1) "d" 2) "d" 1).conns.lookup "d" =
      some 2 := by
  decide

/-- Claim C4, counterexample. The claim says an expired envelope is deleted no
later than its `expiresAt` and that a backlog drain run after its expiry never
delivers it.  The backlog drain query carries no condition on `expiresAt`, so a
drain run at any time after the expiry (time 5) of `lateEnvelope` — e.g. at
time 10, before the next hourly sweep — still returns it; and even a sweep at
exactly time 5 deletes nothing (`lt` is strict), so the envelope outlives its
`expiresAt`. -/
theorem drain_after_expiry_counterexample :
    backlogQuery [lateEnvelope] "b" = [lateEnvelope] ∧
    cleanupExpiredEnvelopes [lateEnvelope] 5 = ([lateEnvelope], 0) ∧
    lateEnvelope.expiresAt = 5 := by
  decide

/-- Claim C7, counterexample. The claim says `sweepExpired` deletes exactly the
envelopes with `expiresAt <= now`, in particular one with `expiresAt` equal to
`now`.  The code filters with strict `lt`, so a sweep at time 5 leaves the
envelope with `expiresAt = 5` in place and reports 0 deletions. -/
theorem sweep_boundary_counterexample :
    cleanupExpiredEnvelopes [boundaryEnvelope] 5 = ([boundaryEnvelope], 0) ∧
    boundaryEnvelope.expiresAt = 5 := by
  decide

/-- Claim C6, counterexample. The claim says a persistence failure surfaces to the
sender as an error frame.  With the store down (`prisma.envelope.create`
throws), a well-formed frame to the existing device `b` from the connected
sender `a` produces no frames at all — the catch block only logs — so the
sender receives neither an error frame nor an ack. -/
theorem persist_failure_silent_counterexample :
    handleMessage stStoreDown "a" 0 (some ⟨"b", "CT", none, none⟩) =
      ({ stStoreDown with rate := [("a", ⟨1, 60000⟩)] }, ⟨[], []⟩) := by
  decide

/-- Claim C8, counterexample. The claim says a frame whose recipient resolves to
neither a device nor a handle is rejected with an explicit response to the
sender.  With an empty directory, a well-formed frame from the connected
sender `a` to the unknown recipient `nobody` is dropped silently: no envelope
is persisted and no frame of any kind is written to the sender's socket. -/
theorem unknown_recipient_silent_counterexample :
    handleMessage stEmptyDirectory "a" 0 (some ⟨"nobody", "CT", none, none⟩) =
      ({ stEmptyDirectory with rate := [("a", ⟨1, 60000⟩)] }, ⟨[], []⟩) := by
  decide

/-- Splitting a list by a decidable predicate preserves its length. -/
theorem length_filter_split (p : Envelope → Prop) [DecidablePred p] :
    ∀ l : List Envelope,
      (l.filter (fun e => !decide (p e))).length + (l.filter (fun e => decide (p e))).length =
        l.length := by
  intro l
  induction l with
  | nil => simp
  | cons x xs ih =>
    by_cases hx : p x <;> simp [hx, List.filter_cons] <;> omega

/-- Claim C7, amended. A sweep at time `now` keeps exactly the envelopes of the
store whose `expiresAt` is `now` or later — equivalently it deletes exactly
those with `expiresAt` strictly before `now`, whatever their `deliveredAt`
(the predicate reads only `expiresAt`) — and the count it returns plus the
remaining rows account for the whole store. -/
theorem sweep_deletes_strictly_expired (store : List Envelope) (now : Nat) :
    (∀ e, e ∈ (cleanupExpiredEnvelopes store now).1 ↔ e ∈ store ∧ now ≤ e.expiresAt) ∧
    (cleanupExpiredEnvelopes store now).1.length + (cleanupExpiredEnvelopes store now).2 =
      store.length := by
  constructor
  · intro e
    simp [cleanupExpiredEnvelopes, List.mem_filter, Nat.not_lt]
  · simpa [cleanupExpiredEnvelopes] using
      length_filter_split (fun e => e.expiresAt < now) store

/-- Claim C4, amended. Deletion of an expired envelope happens at the next sweep
(run hourly), not at `expiresAt` itself, and the backlog drain query does not
filter on expiry, so a drain run between the expiry and that sweep still
delivers the envelope (see the counterexample).  What does hold: once a sweep
has run at a time `t` past the envelope's `expiresAt`, the envelope is gone,
and no later backlog drain can return it. -/
theorem sweep_then_drain_excludes_expired (store : List Envelope) (t : Nat)
    (did : String) (e : Envelope) (h : e.expiresAt < t) :
    e ∉ backlogQuery (cleanupExpiredEnvelopes store t).1 did := by
  intro hmem
  have h1 : e ∈ List.insertionSort createdLe
      (((cleanupExpiredEnvelopes store t).1).filter (fun x => x.toDeviceId == some did)) :=
    (List.take_sublist _ _).subset hmem
  have h2 : e ∈ ((cleanupExpiredEnvelopes store t).1).filter
      (fun x => x.toDeviceId == some did) :=
    (List.perm_insertionSort createdLe _).subset h1
  have h3 : e ∈ (cleanupExpiredEnvelopes store t).1 := (List.mem_filter.mp h2).1
  have h4 : t ≤ e.expiresAt := by
    simp [cleanupExpiredEnvelopes, List.mem_filter, Nat.not_lt] at h3
    exact h3.2
  omega

/-- Witness for `sweep_then_drain_excludes_expired`: a sweep at time 10 removes
`lateEnvelope` (expiry 5), after which draining device `b` cannot return it. -/
theorem sweep_then_drain_excludes_expired_witness :
    lateEnvelope ∉ backlogQuery (cleanupExpiredEnvelopes [lateEnvelope] 10).1 "b" :=
  sweep_then_drain_excludes_expired [lateEnvelope] 10 "b" lateEnvelope (by decide)

/-- The backlog drain result is sorted by `createdAt` ascending: the query sorts
and taking a prefix preserves sortedness. -/
theorem backlogQuery_sorted (store : List Envelope) (did : String) :
    List.Sorted createdLe (backlogQuery store did) :=
  List.Pairwise.sublist (List.take_sublist _ _)
    (List.sorted_insertionSort createdLe
      (store.filter (fun e => e.toDeviceId == some did)))

/-- Claim C9. FIFO order of a drain pass: within the list a single backlog drain
returns, an envelope created strictly earlier than another appears strictly
before it (`orderBy: { createdAt: 'asc' }`). -/
theorem drain_fifo_order (store : List Envelope) (did : String)
    (i j : Fin (backlogQuery store did).length)
    (h : ((backlogQuery store did).get i).createdAt <
         ((backlogQuery store did).get j).createdAt) :
    i < j := by
  by_contra hij
  have hji : j ≤ i := not_lt.mp hij
  rcases lt_or_eq_of_le hji with hlt | heq
  · have hrel : ((backlogQuery store did).get j).createdAt ≤
        ((backlogQuery store did).get i).createdAt :=
      (backlogQuery_sorted store did).rel_get_of_lt hlt
    omega
  · rw [heq] at h
    omega

/-- Witness for `drain_fifo_order`: in `fifoStore` the envelope created at time
0 is stored second but drained first. -/
theorem drain_fifo_order_witness :
    (⟨0, by decide⟩ : Fin (backlogQuery fifoStore "b").length) < ⟨1, by decide⟩ :=
  drain_fifo_order fifoStore "b" ⟨0, by decide⟩ ⟨1, by decide⟩ (by decide)

/-- Deleting, from a store, rows whose ids all differ from `e.id` keeps `e`. -/
theorem mem_foldl_delete_of_ne :
    ∀ (l s : List Envelope) (e : Envelope), e ∈ s → (∀ x ∈ l, x.id ≠ e.id) →
      e ∈ l.foldl (fun s env => s.filter (fun a => !(a.id == env.id))) s := by
  intro l
  induction l with
  | nil => intro s e he _; simpa using he
  | cons x xs ih =>
    intro s e he hx
    simp only [List.foldl_cons]
    apply ih
    · refine List.mem_filter.mpr ⟨he, ?_⟩
      have hne : x.id ≠ e.id := hx x (List.mem_cons_self x xs)
      simp [Ne.symm hne]
    · intro y hy
      exact hx y (List.mem_cons_of_mem x hy)

/-- Claim C10. Drain caps: a single backlog drain pass replays at most 100
envelopes (`take: 100`), the HTTP inbox drain returns at most 200 (`take: 200`),
and an envelope the backlog pass did not send — in particular one beyond the
cap — stays queued in the store. -/
theorem drain_caps :
    (∀ store did, (backlogQuery store did).length ≤ 100) ∧
    (∀ store did peers, (inboxFromQuery store did peers).length ≤ 200) ∧
    (∀ store did e, e ∈ store → (∀ x ∈ (backlogPass store did).1, x.id ≠ e.id) →
      e ∈ (backlogPass store did).2) := by
  refine ⟨?_, ?_, ?_⟩
  · intro store did
    exact List.length_take_le 100
      (List.insertionSort createdLe (store.filter (fun e => e.toDeviceId == some did)))
  · intro store did peers
    exact List.length_take_le 200
      (List.insertionSort createdLe (store.filter
        (fun e => e.toDeviceId == some did && peers.contains e.fromDeviceId)))
  · intro store did e he hx
    exact mem_foldl_delete_of_ne (backlogQuery store did) store e he hx

/-- Witness for `drain_caps`: in `fifoStore` the drain for device `z` sends
nothing, so the envelope with id 10 survives the pass; and the length caps hold
on `fifoStore`. -/
theorem drain_caps_witness :
    (backlogQuery fifoStore "b").length ≤ 100 ∧
    (inboxFromQuery fifoStore "b" ["a"]).length ≤ 200 ∧
    fifoStore.head? = some ⟨10, "a", "u", some "b", "C1", "msg", 1, none, 99⟩ ∧
    (⟨10, "a", "u", some "b", "C1", "msg", 1, none, 99⟩ : Envelope) ∈
      (backlogPass fifoStore "z").2 :=
  ⟨drain_caps.1 fifoStore "b", drain_caps.2.1 fifoStore "b" ["a"], by decide,
   drain_caps.2.2 fifoStore "z" _ (by decide) (by decide)⟩

/-- An in-window message under the cap increments the counter and is accepted. -/
theorem checkRateLimit_increment (did : String) (c winEnd now : Nat)
    (hwin : ¬ winEnd < now) (hc : c < messageRateMax) :
    checkRateLimit [(did, ⟨c, winEnd⟩)] did now = (true, [(did, ⟨c + 1, winEnd⟩)]) := by
  simp [checkRateLimit, List.lookup, mapSet, hwin, Nat.not_le.mpr hc]

/-- Messages all within the current window accumulate onto the counter, each
accepted, as long as the cap is not reached. -/
theorem rateRun_window (did : String) (winEnd : Nat) :
    ∀ (ts : List Nat) (c : Nat), c + ts.length ≤ messageRateMax →
      (∀ t ∈ ts, t ≤ winEnd) →
      rateRun did ts [(did, ⟨c, winEnd⟩)] =
        ([(did, ⟨c + ts.length, winEnd⟩)], List.replicate ts.length true)
  | [], c, _, _ => by simp [rateRun]
  | t :: ts, c, hlen, hts => by
    rw [List.length_cons] at hlen
    have ht : ¬ winEnd < t := Nat.not_lt.mpr (hts t (List.mem_cons_self t ts))
    have hc : c < messageRateMax :=
      Nat.lt_of_lt_of_le (Nat.lt_add_of_pos_right (Nat.succ_pos ts.length)) hlen
    have hstep := checkRateLimit_increment did c winEnd t ht hc
    have ih := rateRun_window did winEnd ts (c + 1) (by omega)
      (fun t' ht' => hts t' (List.mem_cons_of_mem t ht'))
    simp only [rateRun, hstep]
    rw [ih]
    have h3 : c + 1 + ts.length = c + (ts.length + 1) := by omega
    simp [h3, List.replicate_succ]

/-- Claim C5. The rate limiter as claimed, for window `W = 60000` ms and cap
`N = 50`: (i) a first message at `t0` and up to 49 further messages within the
window ending `t0 + W` are all accepted, the counter reaching their number;
(ii) with the counter at the cap, a further in-window message is rejected
without incrementing the counter; (iii) the message handler answers a
rate-limited message with the `RATE_LIMIT` error frame, leaving the server
state — rate map and envelope store — unchanged, so nothing is persisted for
it; (iv) a message strictly after the window's end restarts the counter at 1
with a fresh window. -/
theorem rate_limit_window_behavior :
    (∀ (did : String) (t0 : Nat) (ts : List Nat),
        ts.length < messageRateMax → (∀ t ∈ ts, t ≤ t0 + rateWindowMs) →
        rateRun did (t0 :: ts) [] =
          ([(did, ⟨ts.length + 1, t0 + rateWindowMs⟩)],
           List.replicate (ts.length + 1) true)) ∧
    (∀ (did : String) (winEnd t' : Nat), t' ≤ winEnd →
        checkRateLimit [(did, ⟨messageRateMax, winEnd⟩)] did t' =
          (false, [(did, ⟨messageRateMax, winEnd⟩)])) ∧
    (∀ (st : ServerState) (did : String) (now : Nat) (raw : Option Frame)
        (e : RateLimitEntry),
        st.rate.lookup did = some e → ¬ e.resetAt < now → messageRateMax ≤ e.count →
        handleMessage st did now raw =
          (st, ⟨[OutFrame.errorFrame "RATE_LIMIT" "Too many messages, please slow down"],
                []⟩)) ∧
    (∀ (did : String) (c winEnd t' : Nat), winEnd < t' →
        checkRateLimit [(did, ⟨c, winEnd⟩)] did t' =
          (true, [(did, ⟨1, t' + rateWindowMs⟩)])) := by
  refine ⟨?_, ?_, ?_, ?_⟩
  · intro did t0 ts hlen hts
    have h1 : checkRateLimit [] did t0 = (true, [(did, ⟨1, t0 + rateWindowMs⟩)]) := by
      simp [checkRateLimit, mapSet]
    have h2 := rateRun_window did (t0 + rateWindowMs) ts 1 (by omega) hts
    simp only [rateRun, h1]
    rw [h2]
    have h3 : 1 + ts.length = ts.length + 1 := by omega
    simp [h3, List.replicate_succ]
  · intro did winEnd t' h
    simp [checkRateLimit, List.lookup, Nat.not_lt.mpr h]
  · intro st did now raw e hlook hwin hcount
    have hrl : checkRateLimit st.rate did now = (false, st.rate) := by
      unfold checkRateLimit
      rw [hlook]
      simp [hwin, hcount]
    unfold handleMessage
    rw [hrl]
  · intro did c winEnd t' h
    simp [checkRateLimit, List.lookup, mapSet, h]

/-- Witness for `rate_limit_window_behavior` at concrete inputs: one message at
time 0 is accepted with count 1; at the cap, a message at the window's end is
rejected with the counter staying at 50; the handler answers with the
`RATE_LIMIT` error frame and an unchanged state; one millisecond past the
window's end the counter restarts at 1. -/
theorem rate_limit_window_behavior_witness :
    rateRun "d" [0] [] = ([("d", ⟨1, 60000⟩)], [true]) ∧
    checkRateLimit [("d", ⟨50, 60000⟩)] "d" 60000 = (false, [("d", ⟨50, 60000⟩)]) ∧
    handleMessage stAtRateMax "d" 7 none =
      (stAtRateMax,
       ⟨[OutFrame.errorFrame "RATE_LIMIT" "Too many messages, please slow down"], []⟩) ∧
    checkRateLimit [("d", ⟨50, 60000⟩)] "d" 60001 = (true, [("d", ⟨1, 120001⟩)]) := by
  refine ⟨?_, ?_, ?_, ?_⟩
  · simpa using rate_limit_window_behavior.1 "d" 0 [] (by decide) (by simp)
  · simpa using rate_limit_window_behavior.2.1 "d" 60000 60000 (by decide)
  · exact rate_limit_window_behavior.2.2.1 stAtRateMax "d" 7 none ⟨50, 60000⟩
      (by decide) (by decide) (by decide)
  · simpa using rate_limit_window_behavior.2.2.2 "d" 50 60000 60001 (by decide)

/-- Claim C6, amended. When the rate gate accepts, the frame is well-formed and
the recipient resolves, but the persistence backend is down
(`prisma.envelope.create` throws), the handler's catch block only logs: the
call returns with no envelope appended to the store and with no frames written
to any socket — the sender gets neither an error frame nor an ack; the failure
is silent from the sender's point of view (only the rate-map update of the
already-passed gate persists). -/
theorem persist_failure_silent (st : ServerState) (did : String) (now : Nat)
    (frame : Frame) (rate' : RateMap)
    (hrl : checkRateLimit st.rate did now = (true, rate'))
    (hto : frame.toRecipient ≠ "") (hct : frame.ciphertext ≠ "")
    (hres : (st.devices.find? (fun d => d.id == frame.toRecipient)).isSome ∨
            (st.users.find? (fun u => u.username == frame.toRecipient)).isSome)
    (hdown : st.storeUp = false) :
    handleMessage st did now (some frame) = ({ st with rate := rate' }, ⟨[], []⟩) := by
  unfold handleMessage
  rw [hrl]
  have h1 : (frame.toRecipient == "") = false := beq_eq_false_iff_ne.mpr hto
  have h2 : (frame.ciphertext == "") = false := beq_eq_false_iff_ne.mpr hct
  cases hd : st.devices.find? (fun d => d.id == frame.toRecipient) with
  | some d => simp [h1, h2, hd, hdown]
  | none =>
    cases hu : st.users.find? (fun u => u.username == frame.toRecipient) with
    | some u => simp [h1, h2, hd, hu, hdown]
    | none =>
      rw [hd, hu] at hres
      simp at hres

/-- Witness for `persist_failure_silent`: against `stStoreDown` (store down,
sender `a` connected, recipient device `b` existing) a well-formed frame
produces no output frames at all. -/
theorem persist_failure_silent_witness :
    handleMessage stStoreDown "a" 5 (some ⟨"b", "C2", none, none⟩) =
      ({ stStoreDown with rate := [("a", ⟨1, 60005⟩)] }, ⟨[], []⟩) :=
  persist_failure_silent stStoreDown "a" 5 ⟨"b", "C2", none, none⟩
    [("a", ⟨1, 60005⟩)] (by decide) (by decide) (by decide)
    (Or.inl (by decide)) rfl

/-- Claim C8, amended. Recipient resolution in the message handler tries the
recipient as a device id first, else as a username — in which case the
envelope targets the whole account, with no specific device — and a recipient
that is neither is dropped silently: no envelope is persisted and no frame of
any kind is sent to the sender (first conjunct).  The HTTP `GET /resolve/:who`
endpoint separately accepts an existing device id as-is (second conjunct) and
answers 404 for a `who` that is neither a device id nor a known username
(third conjunct). -/
theorem unknown_recipient_silently_dropped :
    (∀ (st : ServerState) (did : String) (now : Nat) (frame : Frame) (rate' : RateMap),
        checkRateLimit st.rate did now = (true, rate') →
        frame.toRecipient ≠ "" → frame.ciphertext ≠ "" →
        st.devices.find? (fun d => d.id == frame.toRecipient) = none →
        st.users.find? (fun u => u.username == frame.toRecipient) = none →
        handleMessage st did now (some frame) = ({ st with rate := rate' }, ⟨[], []⟩)) ∧
    (∀ (devices : List Device) (users : List UserRow) (who : String) (d : Device),
        devices.find? (fun x => x.id == who) = some d →
        resolveWho devices users who = some d.id) ∧
    (∀ (devices : List Device) (users : List UserRow) (who : String),
        devices.find? (fun x => x.id == who) = none →
        users.find? (fun u => u.username == who.trim.toLower) = none →
        resolveWho devices users who = none) := by
  refine ⟨?_, ?_, ?_⟩
  · intro st did now frame rate' hrl hto hct hd hu
    unfold handleMessage
    rw [hrl]
    have h1 : (frame.toRecipient == "") = false := beq_eq_false_iff_ne.mpr hto
    have h2 : (frame.ciphertext == "") = false := beq_eq_false_iff_ne.mpr hct
    simp [h1, h2, hd, hu]
  · intro devices users who d hd
    unfold resolveWho
    rw [hd]
  · intro devices users who hd hu
    unfold resolveWho
    rw [hd, hu]

/-- Witness for `unknown_recipient_silently_dropped`: a frame to the unknown
recipient `ghost` yields no output frames; `/resolve` passes the device id `b`
through and 404s on `ghost`. -/
theorem unknown_recipient_silently_dropped_witness :
    handleMessage stEmptyDirectory "a" 5 (some ⟨"ghost", "C3", none, none⟩) =
      ({ stEmptyDirectory with rate := [("a", ⟨1, 60005⟩)] }, ⟨[], []⟩) ∧
    resolveWho [deviceB] [] "b" = some "b" ∧
    resolveWho [] [] "ghost" = none :=
  ⟨unknown_recipient_silently_dropped.1 stEmptyDirectory "a" 5
      ⟨"ghost", "C3", none, none⟩ [("a", ⟨1, 60005⟩)]
      (by decide) (by decide) (by decide) (by decide) (by decide),
   unknown_recipient_silently_dropped.2.1 [deviceB] [] "b" deviceB (by decide),
   unknown_recipient_silently_dropped.2.2 [] [] "ghost" (by decide) (by decide)⟩

end GhostComms
